import Mathlib

/-!
# Verification of the CODAGE11 3D pricer core (`src/main.py`)

Shallow embedding of the two pure core computations of the repository:

* `analyze_3d_file_simple` (the Estimator): synthesises a geometric analysis
  record from a file's byte size;
* `calculate_price` (the Pricer): turns an analysis record, a material key and
  print parameters into an itemized quote.

Python floats are modelled by `ℚ`.  Python's `round(x, n)` is modelled by
`roundTo n` (round to nearest multiple of `10^(-n)`); Python resolves exact
ties to the even digit while `roundTo` resolves them upward — no theorem or
concrete evaluation below sits on an exact tie, so the two agree on every
value appearing here.  Python's `ZeroDivisionError` (reachable only through
the `0.2 / layer_height` step) and `ValueError` for an unknown material key
are modelled by `Except PriceError`.  The `dimensions_cm` field of the
analysis record (a float cube-root heuristic, `volume ** (1/3)` scaled by
1.2/0.8/1.0) is irrational-valued and is consumed by nothing; it is omitted
from the embedded record.
-/

/-- Python `round(q, n)`: round to the nearest multiple of `10^(-n)`. -/
def roundTo (n : ℕ) (q : ℚ) : ℚ := (round (q * 10 ^ n) : ℤ) / 10 ^ n

/-- One entry of the static `MATERIALS` catalog of `src/main.py`. -/
structure MaterialProfile where
  name : String
  density : ℚ
  price_per_kg : ℚ
  print_speed_modifier : ℚ
  support_difficulty : ℚ
deriving DecidableEq, Repr

/-! The four entries of the static `MATERIALS` dict
(`src/main.py` lines 37-66). -/

def PLA : MaterialProfile :=
  { name := "PLA (Standard)", density := 124/100, price_per_kg := 25,
    print_speed_modifier := 1, support_difficulty := 1 }

def ABS : MaterialProfile :=
  { name := "ABS (High Strength)", density := 104/100, price_per_kg := 30,
    print_speed_modifier := 9/10, support_difficulty := 12/10 }

def PETG : MaterialProfile :=
  { name := "PETG (Chemical Resistant)", density := 127/100, price_per_kg := 35,
    print_speed_modifier := 8/10, support_difficulty := 11/10 }

def TPU : MaterialProfile :=
  { name := "TPU (Flexible)", density := 12/10, price_per_kg := 45,
    print_speed_modifier := 5/10, support_difficulty := 15/10 }

/-- The static `MATERIALS` dict (`src/main.py` lines 37-66) as a lookup
function on keys. -/
def MATERIALS (key : String) : Option MaterialProfile :=
  if key = "PLA" then some PLA
  else if key = "ABS" then some ABS
  else if key = "PETG" then some PETG
  else if key = "TPU" then some TPU
  else none

/-! `PRICING_CONFIG` (`src/main.py` lines 69-76). -/

def base_print_time_per_cm3 : ℚ := 2
def machine_cost_per_hour : ℚ := 15
def post_processing_base : ℚ := 5
def support_cost_multiplier : ℚ := 3/10
def margin_fraction : ℚ := 25/100
def minimum_price : ℚ := 5

/-- The analysis record returned by `analyze_3d_file_simple`
(`src/main.py` lines 116-126), minus the unused `dimensions_cm` field. -/
structure AnalysisRecord where
  volume_cm3 : ℚ
  surface_area_cm2 : ℚ
  face_count : ℕ
  vertex_count : ℕ
  complexity_factor : ℚ
  is_watertight : Bool
  needs_supports : Bool
  analysis_method : String
deriving DecidableEq, Repr

/-- The un-rounded volume heuristic `max(1.0, file_size / 100000 * 10)`
(`src/main.py` line 92). -/
def estimated_volume_cm3 (file_size : ℕ) : ℚ :=
  max 1 ((file_size : ℚ) / 100000 * 10)

/-- The un-rounded complexity heuristic `min(1.0, file_size / 1000000)`
(`src/main.py` line 106). -/
def complexity_factor_raw (file_size : ℕ) : ℚ :=
  min 1 ((file_size : ℚ) / 1000000)

/-- `analyze_3d_file_simple` (`src/main.py` lines 78-129).  The `file_path`
argument only yields a file extension that is never used afterwards, so the
embedding takes the byte size alone.  `int(x)` on the non-negative quotients
of lines 109-110 is floor, i.e. natural division. -/
def analyze_3d_file_simple (file_size : ℕ) : AnalysisRecord :=
  let estimated_volume := estimated_volume_cm3 file_size
  let estimated_surface_area := estimated_volume * 6
  let complexity_factor := complexity_factor_raw file_size
  let face_count := file_size / 50
  let vertex_count := face_count * 6 / 10
  { volume_cm3 := roundTo 3 estimated_volume
    surface_area_cm2 := roundTo 2 estimated_surface_area
    face_count := face_count
    vertex_count := vertex_count
    complexity_factor := roundTo 3 complexity_factor
    is_watertight := true
    needs_supports := decide (complexity_factor > 3/10)
    analysis_method := "simplified_demo" }

/-! The local quantities of `calculate_price` (`src/main.py` lines 131-216),
one definition per local variable, with the inputs each one depends on made
explicit: `m` the resolved material profile, `volume` the analysis volume,
`c` the analysis complexity factor, `infill` / `layer_height` the print
parameters and `sup` the resolved support flag. -/

def infill_multiplier (infill : ℚ) : ℚ := 1/10 + infill / 100 * (9/10)

def effective_volume (volume infill : ℚ) (sup : Bool) : ℚ :=
  let ev := volume * infill_multiplier infill
  if sup then ev + volume * (15/100) else ev

def weight_g (m : MaterialProfile) (volume infill : ℚ) (sup : Bool) : ℚ :=
  effective_volume volume infill sup * m.density

def material_cost (m : MaterialProfile) (volume infill : ℚ) (sup : Bool) : ℚ :=
  weight_g m volume infill sup / 1000 * m.price_per_kg

def base_time_minutes (volume : ℚ) : ℚ := volume * base_print_time_per_cm3

def layer_modifier (layer_height : ℚ) : ℚ := (2/10) / layer_height

def complexity_modifier (c : ℚ) : ℚ := 1 + c * (5/10)

def support_modifier (sup : Bool) : ℚ := 1 + (if sup then 3/10 else 0)

def total_time_minutes (m : MaterialProfile) (volume c layer_height : ℚ) (sup : Bool) : ℚ :=
  base_time_minutes volume * layer_modifier layer_height *
    complexity_modifier c * support_modifier sup / m.print_speed_modifier

def total_time_hours (m : MaterialProfile) (volume c layer_height : ℚ) (sup : Bool) : ℚ :=
  total_time_minutes m volume c layer_height sup / 60

def machine_cost (m : MaterialProfile) (volume c layer_height : ℚ) (sup : Bool) : ℚ :=
  total_time_hours m volume c layer_height sup * machine_cost_per_hour

def post_processing (m : MaterialProfile) (volume infill : ℚ) (sup : Bool) : ℚ :=
  post_processing_base +
    (if sup then material_cost m volume infill sup * support_cost_multiplier else 0)

def subtotal (m : MaterialProfile) (volume c infill layer_height : ℚ) (sup : Bool) : ℚ :=
  material_cost m volume infill sup + machine_cost m volume c layer_height sup +
    post_processing m volume infill sup

def margin_amount (m : MaterialProfile) (volume c infill layer_height : ℚ) (sup : Bool) : ℚ :=
  subtotal m volume c infill layer_height sup * margin_fraction

/-- `total_price` after the `max(total_price, minimum_price)` floor
(`src/main.py` lines 187-190). -/
def total_price (m : MaterialProfile) (volume c infill layer_height : ℚ) (sup : Bool) : ℚ :=
  max (subtotal m volume c infill layer_height sup +
       margin_amount m volume c infill layer_height sup) minimum_price

/-- The errors `calculate_price` can raise: the explicit
`ValueError(f"Unknown material: {material}")` of line 138, and Python's
`ZeroDivisionError` from `0.2 / layer_height` at line 165. -/
inductive PriceError where
  | unknownMaterial (key : String)
  | divisionByZero
deriving DecidableEq, Repr

structure QuoteMaterial where
  type : String
  name : String
  weight_g : ℚ
  cost : ℚ
deriving DecidableEq, Repr

structure QuotePrintTime where
  hours : ℚ
  minutes : ℚ
deriving DecidableEq, Repr

structure QuoteCosts where
  material : ℚ
  machine_time : ℚ
  post_processing : ℚ
  subtotal : ℚ
  margin : ℚ
  total : ℚ
deriving DecidableEq, Repr

structure QuoteParameters where
  infill_percent : ℚ
  layer_height_mm : ℚ
  includes_supports : Bool
deriving DecidableEq, Repr

/-- The dict returned by `calculate_price` (`src/main.py` lines 192-216). -/
structure Quote where
  material : QuoteMaterial
  print_time : QuotePrintTime
  costs : QuoteCosts
  parameters : QuoteParameters
deriving DecidableEq, Repr

/-- The returned dict of `calculate_price` for a resolved material profile and
support flag, all monetary fields rounded to 2 decimals, hours to 2 and
minutes to 0 (`src/main.py` lines 192-216). -/
def quoteOf (material : String) (m : MaterialProfile) (a : AnalysisRecord)
    (infill layer_height : ℚ) (sup : Bool) : Quote :=
  { material :=
      { type := material
        name := m.name
        weight_g := roundTo 2 (weight_g m a.volume_cm3 infill sup)
        cost := roundTo 2 (material_cost m a.volume_cm3 infill sup) }
    print_time :=
      { hours := roundTo 2 (total_time_hours m a.volume_cm3 a.complexity_factor layer_height sup)
        minutes := roundTo 0 (total_time_minutes m a.volume_cm3 a.complexity_factor layer_height sup) }
    costs :=
      { material := roundTo 2 (material_cost m a.volume_cm3 infill sup)
        machine_time := roundTo 2 (machine_cost m a.volume_cm3 a.complexity_factor layer_height sup)
        post_processing := roundTo 2 (post_processing m a.volume_cm3 infill sup)
        subtotal := roundTo 2 (subtotal m a.volume_cm3 a.complexity_factor infill layer_height sup)
        margin := roundTo 2 (margin_amount m a.volume_cm3 a.complexity_factor infill layer_height sup)
        total := roundTo 2 (total_price m a.volume_cm3 a.complexity_factor infill layer_height sup) }
    parameters :=
      { infill_percent := infill
        layer_height_mm := layer_height
        includes_supports := sup } }

/-- `calculate_price` (`src/main.py` lines 131-216).  The unknown-material
check comes first (line 137); with a resolved material every step up to
line 165 is fault-free, and `0.2 / layer_height` raises `ZeroDivisionError`
exactly when `layer_height == 0` (the remaining divisions are by the nonzero
constants 100, 1000, 60 and the catalog's nonzero speed modifiers).  The
tri-state `include_supports` defaults to `analysis["needs_supports"]` when
unset (lines 144-145); the Python defaults are `infill=20.0`,
`layer_height=0.2`, `include_supports=None`. -/
def calculate_price (analysis : AnalysisRecord) (material : String)
    (infill layer_height : ℚ) (include_supports : Option Bool) :
    Except PriceError Quote :=
  match MATERIALS material with
  | none => .error (.unknownMaterial material)
  | some mat_props =>
    if layer_height = 0 then .error .divisionByZero
    else
      .ok (quoteOf material mat_props analysis infill layer_height
        (include_supports.getD analysis.needs_supports))

/-! Concrete records used by the witness theorems below.  `A0` is the spec's
worked scenario (`byteSize = 500000`); `A1` is the degenerate empty file.
The `Q…` quotes are the fully evaluated outputs of `calculate_price` on the
inputs named in their doc comments. -/

def A0 : AnalysisRecord := analyze_3d_file_simple 500000

def A1 : AnalysisRecord := analyze_3d_file_simple 0

/-- `calculate_price A0 "PLA" 20 (1/4) (some false)`, evaluated. -/
def Q1 : Quote :=
  { material := { type := "PLA", name := "PLA (Standard)", weight_g := 434/25, cost := 43/100 }
    print_time := { hours := 167/100, minutes := 100 }
    costs := { material := 43/100, machine_time := 25, post_processing := 5,
               subtotal := 3043/100, margin := 761/100, total := 951/25 }
    parameters := { infill_percent := 20, layer_height_mm := 1/4, includes_supports := false } }

/-- `calculate_price A0 "PLA" 30 (1/4) (some false)`, evaluated. -/
def Q2 : Quote :=
  { material := { type := "PLA", name := "PLA (Standard)", weight_g := 1147/50, cost := 57/100 }
    print_time := { hours := 167/100, minutes := 100 }
    costs := { material := 57/100, machine_time := 25, post_processing := 5,
               subtotal := 3057/100, margin := 191/25, total := 1911/50 }
    parameters := { infill_percent := 30, layer_height_mm := 1/4, includes_supports := false } }

/-- `calculate_price A0 "PLA" 20 (1/4) (some true)`, evaluated. -/
def QT : Quote :=
  { material := { type := "PLA", name := "PLA (Standard)", weight_g := 1333/50, cost := 67/100 }
    print_time := { hours := 217/100, minutes := 130 }
    costs := { material := 67/100, machine_time := 65/2, post_processing := 26/5,
               subtotal := 3837/100, margin := 959/100, total := 1199/25 }
    parameters := { infill_percent := 20, layer_height_mm := 1/4, includes_supports := true } }

/-- `calculate_price A1 "ABS" 20 (1/4) (some false)`, evaluated. -/
def QABS4 : Quote :=
  { material := { type := "ABS", name := "ABS (High Strength)", weight_g := 29/100, cost := 1/100 }
    print_time := { hours := 3/100, minutes := 2 }
    costs := { material := 1/100, machine_time := 11/25, post_processing := 5,
               subtotal := 109/20, margin := 34/25, total := 341/50 }
    parameters := { infill_percent := 20, layer_height_mm := 1/4, includes_supports := false } }

/-- `calculate_price A1 "ABS" 20 (1/8) (some false)`, evaluated. -/
def QABS8 : Quote :=
  { material := { type := "ABS", name := "ABS (High Strength)", weight_g := 29/100, cost := 1/100 }
    print_time := { hours := 3/50, minutes := 4 }
    costs := { material := 1/100, machine_time := 89/100, post_processing := 5,
               subtotal := 59/10, margin := 147/100, total := 737/100 }
    parameters := { infill_percent := 20, layer_height_mm := 1/8, includes_supports := false } }

/-! ## General lemmas about the embedding -/

/-- `roundTo` is monotone: rounding every monetary figure to a fixed number of
decimals preserves `≤`. -/
lemma roundTo_mono (n : ℕ) {q r : ℚ} (h : q ≤ r) : roundTo n q ≤ roundTo n r := by
  have hp : (0:ℚ) < 10 ^ n := by positivity
  have h2 : round (q * 10 ^ n) ≤ round (r * 10 ^ n) := by
    rw [round_eq, round_eq]
    exact Int.floor_le_floor (by nlinarith)
  unfold roundTo
  gcongr

/-- Every profile in the catalog has positive density, price and speed
modifier. -/
lemma MATERIALS_pos {key : String} {m : MaterialProfile} (hm : MATERIALS key = some m) :
    0 < m.density ∧ 0 < m.price_per_kg ∧ 0 < m.print_speed_modifier := by
  unfold MATERIALS at hm
  split_ifs at hm <;>
    first
      | exact Option.noConfusion hm
      | (injection hm with hm
         subst hm
         norm_num [PLA, ABS, PETG, TPU])

/-- Inversion principle for a successful `calculate_price` call: the material
resolves in the catalog, the layer height is nonzero, and the returned quote
is exactly `quoteOf` at the resolved support flag. -/
lemma calculate_price_ok {a : AnalysisRecord} {mat : String} {infill lh : ℚ}
    {s : Option Bool} {q : Quote}
    (hok : calculate_price a mat infill lh s = Except.ok q) :
    ∃ m, MATERIALS mat = some m ∧ lh ≠ 0 ∧
      q = quoteOf mat m a infill lh (s.getD a.needs_supports) := by
  cases hm : MATERIALS mat with
  | none => simp [calculate_price, hm] at hok
  | some m =>
    by_cases hl : lh = 0
    · simp [calculate_price, hm, hl] at hok
    · refine ⟨m, rfl, hl, ?_⟩
      simp [calculate_price, hm, hl] at hok
      exact hok.symm

/-! ## Evaluation lemmas for the concrete records

Rational arithmetic does not reduce well in the kernel (`Nat.gcd` is
well-founded recursive), so the concrete computations are established once
here by `norm_num` with the floor extension, and reused by the witness
theorems. -/

/-- The spec's worked scenario: `byteSize = 500000` gives volume 50,
complexity 0.5 and auto-detected supports. -/
lemma A0_eval : A0.volume_cm3 = 50 ∧ A0.complexity_factor = 1/2 ∧
    A0.needs_supports = true := by
  refine ⟨?_, ?_, ?_⟩ <;>
    norm_num [A0, analyze_3d_file_simple, estimated_volume_cm3,
      complexity_factor_raw, roundTo, round_eq, min_def, max_def]

/-- The degenerate empty file: volume floored at 1, complexity 0, no
supports. -/
lemma A1_eval : A1.volume_cm3 = 1 ∧ A1.complexity_factor = 0 ∧
    A1.needs_supports = false := by
  refine ⟨?_, ?_, ?_⟩ <;>
    norm_num [A1, analyze_3d_file_simple, estimated_volume_cm3,
      complexity_factor_raw, roundTo, round_eq, min_def, max_def]

lemma Q1_eval : calculate_price A0 "PLA" 20 (1/4) (some false) = Except.ok Q1 := by
  norm_num [A0, analyze_3d_file_simple, estimated_volume_cm3, complexity_factor_raw,
    calculate_price, MATERIALS, quoteOf, Q1, PLA,
    weight_g, material_cost, effective_volume, infill_multiplier,
    total_time_minutes, total_time_hours, machine_cost, base_time_minutes,
    layer_modifier, complexity_modifier, support_modifier,
    post_processing, subtotal, margin_amount, total_price,
    base_print_time_per_cm3, machine_cost_per_hour, post_processing_base,
    support_cost_multiplier, margin_fraction, minimum_price,
    roundTo, round_eq, min_def, max_def]

lemma Q2_eval : calculate_price A0 "PLA" 30 (1/4) (some false) = Except.ok Q2 := by
  norm_num [A0, analyze_3d_file_simple, estimated_volume_cm3, complexity_factor_raw,
    calculate_price, MATERIALS, quoteOf, Q2, PLA,
    weight_g, material_cost, effective_volume, infill_multiplier,
    total_time_minutes, total_time_hours, machine_cost, base_time_minutes,
    layer_modifier, complexity_modifier, support_modifier,
    post_processing, subtotal, margin_amount, total_price,
    base_print_time_per_cm3, machine_cost_per_hour, post_processing_base,
    support_cost_multiplier, margin_fraction, minimum_price,
    roundTo, round_eq, min_def, max_def]

lemma QT_eval : calculate_price A0 "PLA" 20 (1/4) (some true) = Except.ok QT := by
  norm_num [A0, analyze_3d_file_simple, estimated_volume_cm3, complexity_factor_raw,
    calculate_price, MATERIALS, quoteOf, QT, PLA,
    weight_g, material_cost, effective_volume, infill_multiplier,
    total_time_minutes, total_time_hours, machine_cost, base_time_minutes,
    layer_modifier, complexity_modifier, support_modifier,
    post_processing, subtotal, margin_amount, total_price,
    base_print_time_per_cm3, machine_cost_per_hour, post_processing_base,
    support_cost_multiplier, margin_fraction, minimum_price,
    roundTo, round_eq, min_def, max_def]

lemma QABS4_eval : calculate_price A1 "ABS" 20 (1/4) (some false) = Except.ok QABS4 := by
  have hm : MATERIALS "ABS" = some ABS := by simp [MATERIALS]
  norm_num [A1, analyze_3d_file_simple, estimated_volume_cm3, complexity_factor_raw,
    calculate_price, hm, quoteOf, QABS4, ABS,
    weight_g, material_cost, effective_volume, infill_multiplier,
    total_time_minutes, total_time_hours, machine_cost, base_time_minutes,
    layer_modifier, complexity_modifier, support_modifier,
    post_processing, subtotal, margin_amount, total_price,
    base_print_time_per_cm3, machine_cost_per_hour, post_processing_base,
    support_cost_multiplier, margin_fraction, minimum_price,
    roundTo, round_eq, min_def, max_def]

lemma QABS8_eval : calculate_price A1 "ABS" 20 (1/8) (some false) = Except.ok QABS8 := by
  have hm : MATERIALS "ABS" = some ABS := by simp [MATERIALS]
  norm_num [A1, analyze_3d_file_simple, estimated_volume_cm3, complexity_factor_raw,
    calculate_price, hm, quoteOf, QABS8, ABS,
    weight_g, material_cost, effective_volume, infill_multiplier,
    total_time_minutes, total_time_hours, machine_cost, base_time_minutes,
    layer_modifier, complexity_modifier, support_modifier,
    post_processing, subtotal, margin_amount, total_price,
    base_print_time_per_cm3, machine_cost_per_hour, post_processing_base,
    support_cost_multiplier, margin_fraction, minimum_price,
    roundTo, round_eq, min_def, max_def]

/-! ## Claim theorems -/

/-- C2: for every non-negative byte size (including 0), the analysis record
returned by the estimator has `volume_cm3 >= 1.0`: the floor
`max(1.0, file_size / 100000 * 10)` is applied and rounding to 3 decimals
cannot bring the result below 1. -/
theorem estimate_volume_ge_one (file_size : ℕ) :
    1 ≤ (analyze_3d_file_simple file_size).volume_cm3 := by
  have h1 : (1:ℚ) ≤ estimated_volume_cm3 file_size := le_max_left _ _
  calc (1:ℚ) = roundTo 3 1 := by norm_num [roundTo, round_eq]
    _ ≤ roundTo 3 (estimated_volume_cm3 file_size) := roundTo_mono 3 h1
    _ = (analyze_3d_file_simple file_size).volume_cm3 := rfl

/-- C3, counterexample: at `file_size = 300400` the raw complexity
`0.3004` exceeds `0.3`, so `needs_supports` is `true`, but the record's
`complexity_factor` is rounded to 3 decimals down to exactly `0.3`, so
`needs_supports == (complexity_factor > 0.3)` fails on the returned record. -/
theorem needs_supports_rounding_cex :
    (analyze_3d_file_simple 300400).needs_supports = true ∧
      ¬ (3/10 : ℚ) < (analyze_3d_file_simple 300400).complexity_factor := by
  constructor
  · norm_num [analyze_3d_file_simple, complexity_factor_raw, min_def]
  · norm_num [analyze_3d_file_simple, complexity_factor_raw, min_def, roundTo, round_eq]

/-- C3, amended: `complexity_factor` of the returned record lies in `[0, 1]`,
and `needs_supports` equals the comparison of the *un-rounded* complexity
heuristic with `0.3` (computed on line 114 before the rounding of line 122);
consequently `needs_supports = true` forces the recorded, rounded
`complexity_factor` to be at least `0.3`, but the strict comparison on the
rounded field can fail (see the counterexample). -/
theorem complexity_bounds_and_supports_amended (file_size : ℕ) :
    0 ≤ (analyze_3d_file_simple file_size).complexity_factor ∧
    (analyze_3d_file_simple file_size).complexity_factor ≤ 1 ∧
    ((analyze_3d_file_simple file_size).needs_supports = true ↔
      3/10 < complexity_factor_raw file_size) ∧
    ((analyze_3d_file_simple file_size).needs_supports = true →
      3/10 ≤ (analyze_3d_file_simple file_size).complexity_factor) := by
  have h0 : 0 ≤ complexity_factor_raw file_size := le_min (by norm_num) (by positivity)
  have h1 : complexity_factor_raw file_size ≤ 1 := min_le_left _ _
  have e1 : (analyze_3d_file_simple file_size).complexity_factor
      = roundTo 3 (complexity_factor_raw file_size) := rfl
  have e2 : (analyze_3d_file_simple file_size).needs_supports
      = decide (complexity_factor_raw file_size > 3/10) := rfl
  refine ⟨?_, ?_, ?_, ?_⟩
  · rw [e1]
    calc (0:ℚ) = roundTo 3 0 := by norm_num [roundTo, round_eq]
      _ ≤ roundTo 3 (complexity_factor_raw file_size) := roundTo_mono 3 h0
  · rw [e1]
    calc roundTo 3 (complexity_factor_raw file_size) ≤ roundTo 3 1 := roundTo_mono 3 h1
      _ = 1 := by norm_num [roundTo, round_eq]
  · rw [e2]
    simp [gt_iff_lt]
  · intro h
    rw [e2] at h
    have h' : 3/10 < complexity_factor_raw file_size := of_decide_eq_true h
    rw [e1]
    calc (3/10 : ℚ) = roundTo 3 (3/10) := by norm_num [roundTo, round_eq]
      _ ≤ roundTo 3 (complexity_factor_raw file_size) := roundTo_mono 3 h'.le

/-- C4, counterexample: for a negative requested infill the multiplier
`0.10 + (infill/100)*0.90` drops below `0.10` (here `-0.35` at
`infill = -50`), so the "10% minimum material-fill floor regardless of the
requested infill" does not hold over all inputs, and the pre-support
effective volume can fall below `0.10 * volume` (here `-0.35 < 0.10` at
`volume = 1`). -/
theorem infill_floor_cex :
    infill_multiplier (-50) < 1/10 ∧ effective_volume 1 (-50) false < 1/10 * 1 := by
  constructor <;> norm_num [infill_multiplier, effective_volume]

/-- C4, amended: for every *non-negative* requested infill the multiplier is
at least `0.10`, and for any support setting the effective volume is at least
`0.10 * volume` whenever the volume is non-negative. -/
theorem infill_floor_amended (infill v : ℚ) (sup : Bool)
    (hp : 0 ≤ infill) (hv : 0 ≤ v) :
    1/10 ≤ infill_multiplier infill ∧ 1/10 * v ≤ effective_volume v infill sup := by
  constructor
  · unfold infill_multiplier
    nlinarith
  · cases sup <;> simp [effective_volume, infill_multiplier] <;>
      nlinarith [mul_nonneg hv hp]

/-- Witness for `infill_floor_amended` at `infill = 20`, `v = 2`,
`sup = true`. -/
theorem infill_floor_amended_witness :
    (1:ℚ)/10 ≤ infill_multiplier 20 ∧ 1/10 * 2 ≤ effective_volume 2 20 true :=
  infill_floor_amended 20 2 true (by norm_num) (by norm_num)

/-- C5: a material key absent from the catalog makes `calculate_price` raise
`ValueError` naming the key, with no quote produced; a key present in the
catalog (with nonzero layer height) produces a quote and no error. -/
theorem unknown_material_spec (a : AnalysisRecord) (mat : String)
    (infill lh : ℚ) (s : Option Bool) (hl : 0 < lh) :
    (MATERIALS mat = none →
      calculate_price a mat infill lh s
        = Except.error (PriceError.unknownMaterial mat)) ∧
    (MATERIALS mat ≠ none →
      ∃ q, calculate_price a mat infill lh s = Except.ok q) := by
  constructor
  · intro hm
    simp [calculate_price, hm]
  · intro hm
    obtain ⟨m, hm'⟩ := Option.ne_none_iff_exists'.mp hm
    exact ⟨quoteOf mat m a infill lh (s.getD a.needs_supports),
      by simp [calculate_price, hm', hl.ne']⟩

/-- Witness for `unknown_material_spec`: `"NYLON"` is rejected with the key
named, `"PLA"` succeeds. -/
theorem unknown_material_spec_witness :
    calculate_price A1 "NYLON" 20 (2/10) none
      = Except.error (PriceError.unknownMaterial "NYLON") ∧
    ∃ q, calculate_price A1 "PLA" 20 (2/10) none = Except.ok q :=
  ⟨(unknown_material_spec A1 "NYLON" 20 (2/10) none (by norm_num)).1 (by simp [MATERIALS]),
   (unknown_material_spec A1 "PLA" 20 (2/10) none (by norm_num)).2 (by simp [MATERIALS])⟩

/-- C9: with a catalog material, `layer_height = 0` makes `calculate_price`
hit the unguarded `0.2 / layer_height` and fault with a division-by-zero
error instead of returning a quote, while any `layer_height > 0` completes
without arithmetic error. -/
theorem layer_zero_division_fault (a : AnalysisRecord) (mat : String)
    (m : MaterialProfile) (infill : ℚ) (s : Option Bool)
    (hm : MATERIALS mat = some m) :
    calculate_price a mat infill 0 s = Except.error PriceError.divisionByZero ∧
    ∀ lh : ℚ, 0 < lh → ∃ q, calculate_price a mat infill lh s = Except.ok q := by
  constructor
  · simp [calculate_price, hm]
  · intro lh hl
    exact ⟨quoteOf mat m a infill lh (s.getD a.needs_supports),
      by simp [calculate_price, hm, hl.ne']⟩

/-- Witness for `layer_zero_division_fault` with `"TPU"`. -/
theorem layer_zero_division_fault_witness :
    calculate_price A1 "TPU" 20 0 none = Except.error PriceError.divisionByZero ∧
    ∃ q, calculate_price A1 "TPU" 20 (2/10) none = Except.ok q :=
  ⟨(layer_zero_division_fault A1 "TPU" TPU 20 none (by simp [MATERIALS])).1,
   (layer_zero_division_fault A1 "TPU" TPU 20 none (by simp [MATERIALS])).2 (2/10) (by norm_num)⟩

/-- C10: in every returned quote the duplicated material-cost fields agree:
`material.cost` equals `costs.material` (both are the 2-decimal rounding of
the same `material_cost`). -/
theorem quote_material_cost_consistent (a : AnalysisRecord) (mat : String)
    (infill lh : ℚ) (s : Option Bool) (q : Quote)
    (hok : calculate_price a mat infill lh s = Except.ok q) :
    q.material.cost = q.costs.material := by
  obtain ⟨m, -, -, hq⟩ := calculate_price_ok hok
  subst hq
  rfl

/-- Witness for `quote_material_cost_consistent` on the evaluated quote
`QT`. -/
theorem quote_material_cost_consistent_witness : QT.material.cost = QT.costs.material :=
  quote_material_cost_consistent A0 "PLA" 20 (1/4) (some true) QT QT_eval

/-- C1: every quote actually returned by `calculate_price` (catalog material,
positive layer height, any analysis with `volume_cm3 >= 1`, any infill, any
support setting) has `costs.total >= minimum_price = 5.0`, the floor of line
190 surviving the final 2-decimal rounding. -/
theorem price_total_ge_minimum (a : AnalysisRecord) (mat : String)
    (infill lh : ℚ) (s : Option Bool) (q : Quote)
    (hv : 1 ≤ a.volume_cm3) (hl : 0 < lh)
    (hok : calculate_price a mat infill lh s = Except.ok q) :
    minimum_price ≤ q.costs.total := by
  obtain ⟨m, -, -, hq⟩ := calculate_price_ok hok
  subst hq
  have h5 : minimum_price ≤ total_price m a.volume_cm3 a.complexity_factor infill lh
      (s.getD a.needs_supports) := le_max_right _ _
  have hr : minimum_price = roundTo 2 minimum_price := by
    norm_num [roundTo, round_eq, minimum_price]
  calc minimum_price = roundTo 2 minimum_price := hr
    _ ≤ roundTo 2 (total_price m a.volume_cm3 a.complexity_factor infill lh
        (s.getD a.needs_supports)) := roundTo_mono 2 h5
    _ = (quoteOf mat m a infill lh (s.getD a.needs_supports)).costs.total := rfl

/-- Witness for `price_total_ge_minimum` on the spec's worked scenario. -/
theorem price_total_ge_minimum_witness : minimum_price ≤ Q1.costs.total :=
  price_total_ge_minimum A0 "PLA" 20 (1/4) (some false) Q1 (A0_eval.1.ge.trans' (by norm_num))
    (by norm_num) Q1_eval

/-! ## Raw (pre-rounding) arithmetic lemmas for the pricer -/

lemma effective_volume_false (v i : ℚ) :
    effective_volume v i false = v * infill_multiplier i := rfl

lemma effective_volume_true (v i : ℚ) :
    effective_volume v i true = v * infill_multiplier i + v * (15/100) := rfl

lemma support_modifier_false : support_modifier false = 1 := by
  norm_num [support_modifier]

lemma support_modifier_true : support_modifier true = 13/10 := by
  norm_num [support_modifier]

lemma post_processing_false (m : MaterialProfile) (v i : ℚ) :
    post_processing m v i false = post_processing_base := by
  simp [post_processing]

lemma post_processing_true (m : MaterialProfile) (v i : ℚ) :
    post_processing m v i true
      = post_processing_base + material_cost m v i true * support_cost_multiplier := by
  simp [post_processing]

/-- The un-rounded material cost never decreases when the requested infill
increases. -/
lemma material_cost_mono_raw (m : MaterialProfile) (v : ℚ) (sup : Bool) {p₁ p₂ : ℚ}
    (hv : 0 ≤ v) (hd : 0 < m.density) (hpr : 0 < m.price_per_kg) (hp : p₁ ≤ p₂) :
    material_cost m v p₁ sup ≤ material_cost m v p₂ sup := by
  have key : 0 ≤ v * m.density * m.price_per_kg * (p₂ - p₁) :=
    mul_nonneg (mul_nonneg (mul_nonneg hv hd.le) hpr.le) (by linarith)
  cases sup <;>
    simp only [material_cost, weight_g, effective_volume_false, effective_volume_true,
      infill_multiplier] <;>
    nlinarith [key]

/-- The un-rounded total print time is positive under the record invariants. -/
lemma total_time_pos (m : MaterialProfile) (v c lh : ℚ) (sup : Bool)
    (hv : 1 ≤ v) (hc : 0 ≤ c) (hl : 0 < lh) (hs : 0 < m.print_speed_modifier) :
    0 < total_time_minutes m v c lh sup := by
  unfold total_time_minutes
  apply div_pos ?_ hs
  apply mul_pos (mul_pos (mul_pos ?_ ?_) ?_) ?_
  · unfold base_time_minutes base_print_time_per_cm3
    linarith
  · exact div_pos (by norm_num) hl
  · unfold complexity_modifier
    linarith
  · cases sup <;> norm_num [support_modifier]

/-- Halving the layer height exactly doubles the un-rounded total print
time. -/
lemma total_time_halving (m : MaterialProfile) (v c lh : ℚ) (sup : Bool) (hl : lh ≠ 0) :
    total_time_minutes m v c (lh/2) sup = 2 * total_time_minutes m v c lh sup := by
  unfold total_time_minutes
  have hlm : layer_modifier (lh/2) = 2 * layer_modifier lh := by
    unfold layer_modifier
    field_simp
  rw [hlm]
  ring

/-- Including supports strictly increases the un-rounded material cost,
post-processing cost and floored total, for a non-negative requested infill
and an analysis respecting the record invariants. -/
lemma supports_raw_strict (m : MaterialProfile) (v c i lh : ℚ)
    (hv : 1 ≤ v) (hc : 0 ≤ c) (hi : 0 ≤ i) (hl : 0 < lh)
    (hd : 0 < m.density) (hpr : 0 < m.price_per_kg) (hs : 0 < m.print_speed_modifier) :
    material_cost m v i false < material_cost m v i true ∧
    post_processing m v i false < post_processing m v i true ∧
    total_price m v c i lh false < total_price m v c i lh true := by
  have hv0 : (0:ℚ) < v := by linarith
  have hdp : 0 < v * m.density * m.price_per_kg := mul_pos (mul_pos hv0 hd) hpr
  have hvi : 0 ≤ v * i := mul_nonneg hv0.le hi
  have hmc : material_cost m v i false < material_cost m v i true := by
    simp only [material_cost, weight_g, effective_volume_false, effective_volume_true]
    nlinarith [hdp]
  have hmcT : 0 < material_cost m v i true := by
    simp only [material_cost, weight_g, effective_volume_true, infill_multiplier]
    nlinarith [hdp, mul_nonneg (mul_nonneg hvi hd.le) hpr.le]
  have hmcF : 0 < material_cost m v i false := by
    simp only [material_cost, weight_g, effective_volume_false, infill_multiplier]
    nlinarith [hdp, mul_nonneg (mul_nonneg hvi hd.le) hpr.le]
  have hpp : post_processing m v i false < post_processing m v i true := by
    rw [post_processing_false, post_processing_true]
    unfold support_cost_multiplier
    nlinarith [hmcT]
  refine ⟨hmc, hpp, ?_⟩
  have htF := total_time_pos m v c lh false hv hc hl hs
  have htT := total_time_pos m v c lh true hv hc hl hs
  have hmachF : 0 < machine_cost m v c lh false := by
    unfold machine_cost total_time_hours machine_cost_per_hour
    positivity
  have hmach : machine_cost m v c lh false < machine_cost m v c lh true := by
    unfold machine_cost total_time_hours
    have ht : total_time_minutes m v c lh false < total_time_minutes m v c lh true := by
      unfold total_time_minutes
      rw [support_modifier_false, support_modifier_true]
      have hB : 0 < base_time_minutes v * layer_modifier lh * complexity_modifier c := by
        apply mul_pos (mul_pos ?_ ?_) ?_
        · unfold base_time_minutes base_print_time_per_cm3
          linarith
        · exact div_pos (by norm_num) hl
        · unfold complexity_modifier
          linarith
      rw [div_lt_div_iff_of_pos_right hs]
      nlinarith [hB]
    unfold machine_cost_per_hour
    nlinarith [ht]
  have hsubF : 5 < subtotal m v c i lh false := by
    unfold subtotal
    rw [post_processing_false]
    unfold post_processing_base
    nlinarith [hmcF, hmachF]
  have hsub : subtotal m v c i lh false < subtotal m v c i lh true := by
    unfold subtotal
    nlinarith [hmc, hmach, hpp]
  unfold total_price margin_amount margin_fraction minimum_price
  rw [max_eq_left (by nlinarith [hsubF]), max_eq_left (by nlinarith [hsubF, hsub])]
  nlinarith [hsub]

/-- C6: holding the analysis record, catalog material, layer height and
support setting fixed, a larger requested infill never yields a smaller
`costs.material` in the returned quote. -/
theorem material_cost_mono_infill (a : AnalysisRecord) (mat : String) (lh : ℚ)
    (s : Option Bool) (p₁ p₂ : ℚ) (q₁ q₂ : Quote)
    (hv : 1 ≤ a.volume_cm3) (hl : 0 < lh) (hp : p₁ ≤ p₂)
    (h₁ : calculate_price a mat p₁ lh s = Except.ok q₁)
    (h₂ : calculate_price a mat p₂ lh s = Except.ok q₂) :
    q₁.costs.material ≤ q₂.costs.material := by
  obtain ⟨m, hm, -, hq₁⟩ := calculate_price_ok h₁
  obtain ⟨m', hm', -, hq₂⟩ := calculate_price_ok h₂
  rw [hm] at hm'
  injection hm' with hmm
  subst hmm
  subst hq₁
  subst hq₂
  obtain ⟨hd, hpr, -⟩ := MATERIALS_pos hm
  exact roundTo_mono 2
    (material_cost_mono_raw m a.volume_cm3 (s.getD a.needs_supports) (by linarith) hd hpr hp)

/-- Witness for `material_cost_mono_infill`: infill 20 vs 30 on the worked
scenario. -/
theorem material_cost_mono_infill_witness : Q1.costs.material ≤ Q2.costs.material :=
  material_cost_mono_infill A0 "PLA" (1/4) (some false) 20 30 Q1 Q2
    (A0_eval.1.ge.trans' (by norm_num)) (by norm_num) (by norm_num) Q1_eval Q2_eval

/-- C7, counterexample: the claimed *strict* increase of the returned
(2-decimal-rounded) fields fails.  At `infill = 24.74` on the unit-volume
analysis the material-cost difference `0.15 * volume * density/1000 * price
≈ 0.0047 EUR` vanishes under rounding: both quotes report
`costs.material = 0.01`.  And at `infill = -1000` the support quote's
`costs.post_processing` (4.92) is strictly *smaller* than the no-support
one (5.00), because the support surcharge `0.3 * materialCost` is negative
when the (unfloored) material cost is negative. -/
theorem supports_strict_cex :
    (calculate_price A1 "PLA" (2474/100) (2/10) (some true)).toOption.map
        (fun q => q.costs.material)
      = (calculate_price A1 "PLA" (2474/100) (2/10) (some false)).toOption.map
        (fun q => q.costs.material) ∧
    (calculate_price A1 "PLA" (-1000) (2/10) (some true)).toOption.map
        (fun q => q.costs.post_processing) = some (123/25) ∧
    (calculate_price A1 "PLA" (-1000) (2/10) (some false)).toOption.map
        (fun q => q.costs.post_processing) = some 5 := by
  refine ⟨?_, ?_, ?_⟩ <;>
    norm_num [A1, analyze_3d_file_simple, estimated_volume_cm3, complexity_factor_raw,
      calculate_price, MATERIALS, quoteOf, PLA, Except.toOption,
      weight_g, material_cost, effective_volume, infill_multiplier,
      total_time_minutes, total_time_hours, machine_cost, base_time_minutes,
      layer_modifier, complexity_modifier, support_modifier,
      post_processing, subtotal, margin_amount, total_price,
      base_print_time_per_cm3, machine_cost_per_hour, post_processing_base,
      support_cost_multiplier, margin_fraction, minimum_price,
      roundTo, round_eq, min_def, max_def]

/-- C7, amended: for a *non-negative* requested infill, toggling supports on
strictly increases the un-rounded material cost, post-processing cost and
total; the corresponding fields of the returned quotes never decrease, but
the strictness can be lost to the 2-decimal rounding (and fails outright for
negative infill), per the counterexample. -/
theorem supports_increase_amended (a : AnalysisRecord) (mat : String)
    (m : MaterialProfile) (infill lh : ℚ) (qT qF : Quote)
    (hm : MATERIALS mat = some m)
    (hv : 1 ≤ a.volume_cm3) (hc : 0 ≤ a.complexity_factor)
    (hi : 0 ≤ infill) (hl : 0 < lh)
    (hT : calculate_price a mat infill lh (some true) = Except.ok qT)
    (hF : calculate_price a mat infill lh (some false) = Except.ok qF) :
    (material_cost m a.volume_cm3 infill false
        < material_cost m a.volume_cm3 infill true ∧
      post_processing m a.volume_cm3 infill false
        < post_processing m a.volume_cm3 infill true ∧
      total_price m a.volume_cm3 a.complexity_factor infill lh false
        < total_price m a.volume_cm3 a.complexity_factor infill lh true) ∧
    qF.costs.material ≤ qT.costs.material ∧
    qF.costs.post_processing ≤ qT.costs.post_processing ∧
    qF.costs.total ≤ qT.costs.total := by
  obtain ⟨hd, hpr, hs⟩ := MATERIALS_pos hm
  obtain ⟨mT, hmT, -, hqT⟩ := calculate_price_ok hT
  obtain ⟨mF, hmF, -, hqF⟩ := calculate_price_ok hF
  rw [hm] at hmT hmF
  injection hmT with hmT
  injection hmF with hmF
  subst hmT
  subst hmF
  subst hqT
  subst hqF
  obtain ⟨h1, h2, h3⟩ := supports_raw_strict m a.volume_cm3 a.complexity_factor infill lh
    hv hc hi hl hd hpr hs
  exact ⟨⟨h1, h2, h3⟩, roundTo_mono 2 h1.le, roundTo_mono 2 h2.le, roundTo_mono 2 h3.le⟩

/-- Witness for `supports_increase_amended` on the worked scenario with PLA
at infill 20, layer height 0.25. -/
theorem supports_increase_amended_witness :
    (material_cost PLA A0.volume_cm3 20 false < material_cost PLA A0.volume_cm3 20 true ∧
      post_processing PLA A0.volume_cm3 20 false
        < post_processing PLA A0.volume_cm3 20 true ∧
      total_price PLA A0.volume_cm3 A0.complexity_factor 20 (1/4) false
        < total_price PLA A0.volume_cm3 A0.complexity_factor 20 (1/4) true) ∧
    Q1.costs.material ≤ QT.costs.material ∧
    Q1.costs.post_processing ≤ QT.costs.post_processing ∧
    Q1.costs.total ≤ QT.costs.total :=
  supports_increase_amended A0 "PLA" PLA 20 (1/4) QT Q1 (by simp [MATERIALS])
    (A0_eval.1.ge.trans' (by norm_num)) (A0_eval.2.1.ge.trans' (by norm_num))
    (by norm_num) (by norm_num) QT_eval Q1_eval

/-- C8, counterexample: the claimed *strict* increase of the returned
`print_time.minutes` under halving the layer height fails: at layer heights
16 and 8 on the unit-volume analysis the pre-rounding times are 0.025 and
0.05 minutes, both of which round (0 decimals) to 0 minutes. -/
theorem layer_halving_minutes_cex :
    (calculate_price A1 "PLA" 20 16 (some false)).toOption.map
        (fun q => q.print_time.minutes) = some 0 ∧
    (calculate_price A1 "PLA" 20 8 (some false)).toOption.map
        (fun q => q.print_time.minutes) = some 0 := by
  constructor <;>
    norm_num [A1, analyze_3d_file_simple, estimated_volume_cm3, complexity_factor_raw,
      calculate_price, MATERIALS, quoteOf, PLA, Except.toOption,
      weight_g, material_cost, effective_volume, infill_multiplier,
      total_time_minutes, total_time_hours, machine_cost, base_time_minutes,
      layer_modifier, complexity_modifier, support_modifier,
      post_processing, subtotal, margin_amount, total_price,
      base_print_time_per_cm3, machine_cost_per_hour, post_processing_base,
      support_cost_multiplier, margin_fraction, minimum_price,
      roundTo, round_eq, min_def, max_def]

/-- C8, amended: halving the layer height exactly doubles (hence strictly
increases) the *un-rounded* total print time, for any support flag and a
catalog material; the returned quote's `print_time.minutes` (rounded to 0
decimals) never decreases, but the strictness can be lost to rounding, per
the counterexample. -/
theorem layer_halving_time_amended (a : AnalysisRecord) (mat : String)
    (m : MaterialProfile) (infill lh : ℚ) (s : Option Bool) (sup : Bool)
    (qH qL : Quote) (hm : MATERIALS mat = some m)
    (hv : 1 ≤ a.volume_cm3) (hc : 0 ≤ a.complexity_factor) (hl : 0 < lh)
    (hH : calculate_price a mat infill lh s = Except.ok qH)
    (hL : calculate_price a mat infill (lh/2) s = Except.ok qL) :
    total_time_minutes m a.volume_cm3 a.complexity_factor (lh/2) sup
      = 2 * total_time_minutes m a.volume_cm3 a.complexity_factor lh sup ∧
    total_time_minutes m a.volume_cm3 a.complexity_factor lh sup
      < total_time_minutes m a.volume_cm3 a.complexity_factor (lh/2) sup ∧
    qH.print_time.minutes ≤ qL.print_time.minutes := by
  obtain ⟨-, -, hs'⟩ := MATERIALS_pos hm
  have hdouble := total_time_halving m a.volume_cm3 a.complexity_factor lh sup hl.ne'
  have hpos := total_time_pos m a.volume_cm3 a.complexity_factor lh sup hv hc hl hs'
  refine ⟨hdouble, by linarith, ?_⟩
  obtain ⟨mH, hmH, -, hqH⟩ := calculate_price_ok hH
  obtain ⟨mL, hmL, -, hqL⟩ := calculate_price_ok hL
  rw [hm] at hmH hmL
  injection hmH with hmH
  injection hmL with hmL
  subst hmH
  subst hmL
  subst hqH
  subst hqL
  have hd2 := total_time_halving m a.volume_cm3 a.complexity_factor lh
    (s.getD a.needs_supports) hl.ne'
  have hp2 := total_time_pos m a.volume_cm3 a.complexity_factor lh
    (s.getD a.needs_supports) hv hc hl hs'
  exact roundTo_mono 0 (by linarith)

/-- Witness for `layer_halving_time_amended`: ABS on the empty-file analysis,
layer height 0.25 halved to 0.125. -/
theorem layer_halving_time_amended_witness :
    total_time_minutes ABS A1.volume_cm3 A1.complexity_factor ((1/4)/2) false
      = 2 * total_time_minutes ABS A1.volume_cm3 A1.complexity_factor (1/4) false ∧
    total_time_minutes ABS A1.volume_cm3 A1.complexity_factor (1/4) false
      < total_time_minutes ABS A1.volume_cm3 A1.complexity_factor ((1/4)/2) false ∧
    QABS4.print_time.minutes ≤ QABS8.print_time.minutes :=
  layer_halving_time_amended A1 "ABS" ABS 20 (1/4) (some false) false QABS4 QABS8
    (by simp [MATERIALS]) (A1_eval.1.ge.trans' (by norm_num))
    (A1_eval.2.1.ge.trans' (by norm_num)) (by norm_num) QABS4_eval
    (by rw [show ((1:ℚ)/4)/2 = 1/8 by norm_num]; exact QABS8_eval)

/-- Witness for `estimate_volume_ge_one` at the degenerate byte size 0. -/
theorem estimate_volume_ge_one_witness :
    1 ≤ (analyze_3d_file_simple 0).volume_cm3 :=
  estimate_volume_ge_one 0

/-- Witness for `complexity_bounds_and_supports_amended` at the boundary
byte size 300400. -/
theorem complexity_bounds_and_supports_amended_witness :
    0 ≤ (analyze_3d_file_simple 300400).complexity_factor ∧
    (analyze_3d_file_simple 300400).complexity_factor ≤ 1 ∧
    ((analyze_3d_file_simple 300400).needs_supports = true ↔
      3/10 < complexity_factor_raw 300400) ∧
    ((analyze_3d_file_simple 300400).needs_supports = true →
      3/10 ≤ (analyze_3d_file_simple 300400).complexity_factor) :=
  complexity_bounds_and_supports_amended 300400
